import Mathlib

/-!
Verification of `set_dns_crossplatform.py` (cross-platform DNS setter /
restorer).  The Python functions relevant to the checked claims are
shallowly embedded below: pure string processing is translated directly,
and the effectful parts (subprocess invocations, the filesystem) are
modelled by explicit environment records whose fields give the outcome of
each external interaction the code performs.  Fallible Python code is
modelled with `Option` / `Except`.
-/

/- ------------------------------------------------------------------ -/
/- Python string primitives                                            -/
/- ------------------------------------------------------------------ -/

/-- Whitespace characters removed by Python's `str.strip()` (ASCII part). -/
def pyIsSpace (c : Char) : Bool :=
  c = ' ' || c = '\t' || c = '\n' || c = '\r' || c = '\x0b' || c = '\x0c'

/-- Python `str.strip()` on the character list. -/
def stripChars (l : List Char) : List Char :=
  ((l.dropWhile pyIsSpace).reverse.dropWhile pyIsSpace).reverse

/-- Python `str.strip()`: drop leading and trailing whitespace. -/
def pyStrip (s : String) : String :=
  ⟨stripChars s.data⟩

/-- Is `pat` a leading segment of `l`? -/
def leadsWith : List Char → List Char → Bool
  | [], _ => true
  | _ :: _, [] => false
  | p :: ps, c :: cs => p = c && leadsWith ps cs

/-- Substring containment on character lists. -/
def containsSeq (pat : List Char) : List Char → Bool
  | [] => pat.isEmpty
  | c :: cs => leadsWith pat (c :: cs) || containsSeq pat cs

/-- Python `needle in hay` for strings: substring containment. -/
def pyIn (needle hay : String) : Bool :=
  containsSeq needle.data hay.data

/-- Lowercase one character (ASCII range, which covers the inputs involved). -/
def pyLowerChar (c : Char) : Char :=
  if 'A' ≤ c && c ≤ 'Z' then Char.ofNat (c.toNat + 32) else c

/-- Python `str.lower()` (the inputs involved are ASCII). -/
def pyLower (s : String) : String :=
  ⟨s.data.map pyLowerChar⟩

/- ------------------------------------------------------------------ -/
/- get_os (set_dns_crossplatform.py lines 13-35)                       -/
/- ------------------------------------------------------------------ -/

/-- Embedding of `get_os(test_platform_system)`.  The first two branches
test `"windows" in system_lower` and `"linux" in system_lower`.  The third
branch in the source is `elif "darwin" in system:` where `system` is an
undefined name (the local variable is called `system_to_check` and the
lowered copy `system_lower`), so evaluating that condition raises
`NameError`; we model the raised exception with `Except.error`. -/
def get_os (test_platform_system : String) : Except String String :=
  let system_lower := pyLower test_platform_system
  if pyIn "windows" system_lower then .ok "windows"
  else if pyIn "linux" system_lower then .ok "linux"
  else .error "NameError: name system is not defined"

/- ------------------------------------------------------------------ -/
/- is_valid_ip (lines 37-55)                                           -/
/- ------------------------------------------------------------------ -/

/-- Python `re` semantics of `$` in `re.compile(r"^(?:[0-9]{1,3}\.){3}[0-9]{1,3}$").match(ip)`:
`$` matches at the end of the string or just before a newline that is the
last character, so a match consumes the whole string except possibly one
final `'\n'`.  This computes the part of the string the quad pattern must
cover exactly. -/
def dropFinalNewline (l : List Char) : List Char :=
  if l.getLast? = some '\n' then l.dropLast else l

/-- One `[0-9]{1,3}` group of the regex: one to three decimal digits. -/
def isRegexGroup (g : List Char) : Bool :=
  !g.isEmpty && decide (g.length ≤ 3) && g.all (·.isDigit)

/-- Does the anchored quad regex match (Python `pattern.match(ip)` with the
trailing-`$` semantics above)?  `[0-9]` and `\.` never match `'\n'`, so the
match region splits on `'.'` into exactly four digit groups. -/
def pyMatchIpv4 (l : List Char) : Bool :=
  match (dropFinalNewline l).splitOn '.' with
  | [a, b, c, d] => isRegexGroup a && isRegexGroup b && isRegexGroup c && isRegexGroup d
  | _ => false

/-- Numeric value of a digit group, as Python `int(part)` computes it.
(`int` ignores surrounding whitespace, so the possible final `'\n'` that
`ip.split(".")` would leave in the last part does not change the value;
we therefore evaluate the groups of the match region.) -/
def digitsVal (g : List Char) : Nat :=
  g.foldl (fun n c => 10 * n + (c.toNat - 48)) 0

/-- Embedding of `is_valid_ip(ip)`: regex match, then every dot-separated
part must satisfy `0 <= int(part) <= 255` (the lower bound is automatic
for digit strings). -/
def is_valid_ip (ip : String) : Bool :=
  if pyMatchIpv4 ip.data then
    ((dropFinalNewline ip.data).splitOn '.').all (fun g => digitsVal g ≤ 255)
  else false

/- ------------------------------------------------------------------ -/
/- parse_dns_config (lines 57-110)                                     -/
/- ------------------------------------------------------------------ -/

/-- Python `file.readlines()` (keepends splitting on `'\n'`). -/
def readlinesAux : List Char → List Char → List (List Char)
  | [], acc => if acc.isEmpty then [] else [acc.reverse]
  | c :: cs, acc =>
    if c = '\n' then (acc.reverse ++ ['\n']) :: readlinesAux cs []
    else readlinesAux cs (c :: acc)

/-- The lines of a file's content, as `readlines` yields them. -/
def pyReadlines (s : String) : List String :=
  (readlinesAux s.data []).map (⟨·⟩)

/-- Python `line.split('=', 1)[1]`: everything after the first `'='`. -/
def afterFirstEq (l : List Char) : List Char :=
  (l.dropWhile (· ≠ '=')).drop 1

/-- What one line of the config contributes: `none` when the stripped line
is blank, a comment, lacks `'='`, or carries an invalid address (the code
prints a warning and moves on); `some ip` when a valid address is found. -/
def lineIP (line : String) : Option String :=
  match stripChars line.data with
  | [] => none
  | '#' :: _ => none
  | c :: cs =>
    if (c :: cs).contains '=' then
      let ip : String := ⟨stripChars (afterFirstEq (c :: cs))⟩
      if is_valid_ip ip then some ip else none
    else none

/-- The accumulation loop of `parse_dns_config`: valid addresses are
appended while fewer than 3 are held; the next valid address after that
executes `break` (returning what was collected so far). -/
def collectServers : List String → List String → List String
  | [], acc => acc
  | line :: rest, acc =>
    match lineIP line with
    | none => collectServers rest acc
    | some ip => if acc.length < 3 then collectServers rest (acc ++ [ip]) else acc

/-- Embedding of `parse_dns_config` on the content of an existing file (the
missing-file branch returns `None` before any content is read and is not
modelled further).  An empty file, or content yielding no valid server,
returns `None`. -/
def parse_dns_config (content : String) : Option (List String) :=
  let lines := pyReadlines content
  if lines.isEmpty then none
  else
    let dns_servers := collectServers lines []
    if dns_servers.isEmpty then none else some dns_servers

/- Concrete evaluations checking the embedding against the behaviour of
the Python functions (and against the unit tests where they agree). -/
example : get_os "Windows" = .ok "windows" := rfl
example : get_os "Darwin" = .error "NameError: name system is not defined" := rfl
example : is_valid_ip "8.8.8.8" = true := by decide
example : is_valid_ip "1.2.3.4\n" = true := by decide
example : is_valid_ip "8.8.8.256" = false := by decide
example : is_valid_ip "8.8.8.8." = false := by decide
example : is_valid_ip "" = false := by decide
example : parse_dns_config "# c\nA=8.8.8.8\n\nB=1.1.1.1\nC=9.9.9.9\nD=4.4.4.4\n" =
    some ["8.8.8.8", "1.1.1.1", "9.9.9.9"] := by decide
example : parse_dns_config "# c\n\n" = none := by decide
example : parse_dns_config "A=999.1.1.1\nB\n" = none := by decide

/- ------------------------------------------------------------------ -/
/- Snapshot data model and save/load (lines 994-1021)                  -/
/- ------------------------------------------------------------------ -/

/-- The value of the `"dhcp"` field of a snapshot entry: the snapshotters
store Python `True`/`False`, except the resolvectl reader which stores the
marker string `"unknown_revert_to_resolvectl"`. -/
inductive DhcpVal where
  | bool (b : Bool)
  | str (s : String)
deriving DecidableEq, Repr

/-- One snapshot entry `{"servers": [...], "dhcp": ..., "method": ...}` as
the `get_current_dns_*` functions produce it for one attachment point. -/
structure AttachmentSnapshot where
  servers : List String
  dhcp : DhcpVal
  method : String
deriving DecidableEq, Repr

/-- The per-platform map of the snapshot document: attachment-point name to
entry, in insertion order (Python dicts preserve insertion order). -/
abbrev PlatformMap := List (String × AttachmentSnapshot)

/-- The whole snapshot document: platform name to per-platform map. -/
abbrev HostSnapshot := List (String × PlatformMap)

/-- JSON documents, the values `json.dump` writes and `json.load` reads. -/
inductive Json where
  | null
  | jbool (b : Bool)
  | jnum (n : Int)
  | jstr (s : String)
  | jarr (xs : List Json)
  | jobj (kvs : List (String × Json))
deriving Repr

/-- JSON form of a `"dhcp"` field value. -/
def dhcpToJson : DhcpVal → Json
  | .bool b => .jbool b
  | .str s => .jstr s

/-- JSON form of one snapshot entry (`json.dump` keeps dict key order). -/
def snapToJson (e : AttachmentSnapshot) : Json :=
  .jobj [("servers", .jarr (e.servers.map Json.jstr)),
         ("dhcp", dhcpToJson e.dhcp),
         ("method", .jstr e.method)]

/-- JSON form of a per-platform map. -/
def platformToJson (m : PlatformMap) : Json :=
  .jobj (m.map fun kv => (kv.1, snapToJson kv.2))

/-- Embedding of `save_original_dns_settings`: the JSON document
`json.dump(original_settings, f)` writes for a snapshot. -/
def save_original_dns_settings (s : HostSnapshot) : Json :=
  .jobj (s.map fun kv => (kv.1, platformToJson kv.2))

/-- Option-valued map over a list (`mapM` over `Option`, structurally
recursive so proofs and kernel evaluation unfold it directly). -/
def mapOpt (f : α → Option β) : List α → Option (List β)
  | [] => some []
  | a :: as =>
    match f a, mapOpt f as with
    | some b, some bs => some (b :: bs)
    | _, _ => none

/-- Read back a string leaf. -/
def jsonStr : Json → Option String
  | .jstr s => some s
  | _ => none

/-- Read back a `"dhcp"` field value. -/
def jsonDhcp : Json → Option DhcpVal
  | .jbool b => some (.bool b)
  | .jstr s => some (.str s)
  | _ => none

/-- Read back one snapshot entry. -/
def jsonSnap : Json → Option AttachmentSnapshot
  | .jobj [("servers", .jarr ss), ("dhcp", d), ("method", m)] =>
    match mapOpt jsonStr ss, jsonDhcp d, jsonStr m with
    | some servers, some dh, some meth => some ⟨servers, dh, meth⟩
    | _, _, _ => none
  | _ => none

/-- Read back a per-platform map. -/
def jsonPlatform : Json → Option PlatformMap
  | .jobj kvs => mapOpt (fun kv => (jsonSnap kv.2).map fun e => (kv.1, e)) kvs
  | _ => none

/-- Embedding of `load_original_dns_settings` on the saved document:
`json.load` parses the file back into the settings value (the missing-file
and parse-error branches return `None` and are reflected in the `Option`). -/
def load_original_dns_settings (j : Json) : Option HostSnapshot :=
  match j with
  | .jobj kvs => mapOpt (fun kv => (jsonPlatform kv.2).map fun m => (kv.1, m)) kvs
  | _ => none

theorem mapOpt_jsonStr_map (l : List String) : mapOpt jsonStr (l.map Json.jstr) = some l := by
  induction l with
  | nil => rfl
  | cons a as ih => simp [mapOpt, ih, jsonStr]

theorem jsonSnap_snapToJson (e : AttachmentSnapshot) : jsonSnap (snapToJson e) = some e := by
  cases e with
  | mk servers dhcp method =>
    cases dhcp <;> simp [snapToJson, jsonSnap, mapOpt_jsonStr_map, jsonDhcp, dhcpToJson, jsonStr]

theorem jsonPlatform_platformToJson (m : PlatformMap) :
    jsonPlatform (platformToJson m) = some m := by
  induction m with
  | nil => rfl
  | cons kv rest ih =>
    simp [platformToJson, jsonPlatform, mapOpt, jsonSnap_snapToJson] at *
    simp [ih]

theorem load_save_roundtrip (s : HostSnapshot) :
    load_original_dns_settings (save_original_dns_settings s) = some s := by
  induction s with
  | nil => rfl
  | cons kv rest ih =>
    simp [save_original_dns_settings, load_original_dns_settings, mapOpt,
      jsonPlatform_platformToJson] at *
    simp [ih]

example :
    load_original_dns_settings (save_original_dns_settings
      [("linux", [("eth0", ⟨["8.8.8.8"], .bool false, "nmcli"⟩),
                  ("wlan0", ⟨[], .bool true, "nmcli_unknown_fallback_to_dhcp"⟩),
                  ("eth1", ⟨["1.1.1.1"], .str "unknown_revert_to_resolvectl", "resolvectl"⟩),
                  ("/etc/resolv.conf", ⟨["9.9.9.9"], .bool false, "resolv.conf"⟩)])]) =
    some [("linux", [("eth0", ⟨["8.8.8.8"], .bool false, "nmcli"⟩),
                  ("wlan0", ⟨[], .bool true, "nmcli_unknown_fallback_to_dhcp"⟩),
                  ("eth1", ⟨["1.1.1.1"], .str "unknown_revert_to_resolvectl", "resolvectl"⟩),
                  ("/etc/resolv.conf", ⟨["9.9.9.9"], .bool false, "resolv.conf"⟩)])] := by
  decide

/- ------------------------------------------------------------------ -/
/- set_dns_linux (lines 326-481)                                       -/
/- ------------------------------------------------------------------ -/

/-- Result of opening and reading `/etc/resolv.conf` for the generator
comment check: the content read, `FileNotFoundError`, or another error. -/
inductive ReadOutcome where
  | ok (content : String)
  | notFound
  | err
deriving DecidableEq, Repr

/-- State of `/etc/resolv.conf` and the outcomes of the privileged copy and
move commands of the direct-file branch. -/
structure ResolvFs where
  islink : Bool
  linkTarget : String
  readOutcome : ReadOutcome
  cpOk : Bool
  mvOk : Bool
deriving Repr

/-- The `known_dynamic_targets` list of `set_dns_linux` (line 416). -/
def known_dynamic_targets : List String :=
  ["systemd/resolve/stub-resolv.conf",
   "systemd/resolve/resolv.conf",
   "NetworkManager/resolv.conf",
   "run/resolvconf/resolv.conf"]

/-- The `generator_comments` list of `set_dns_linux` (line 432). -/
def generator_comments : List String :=
  ["# Generated by NetworkManager",
   "# Generated by resolvconf",
   "# Generated by systemd-resolved",
   "# Dynamic resolv.conf(5) file for glibc resolver(3) generated by resolvconf(8)",
   "#     DO NOT EDIT THIS FILE BY HAND -- YOUR CHANGES WILL BE OVERWRITTEN"]

/-- The backup path the direct-file branch copies `/etc/resolv.conf` to
before overwriting it (line 454). -/
def set_backup_path : String := "/etc/resolv.conf.bak_set_dns_py"

/-- Check 1 of the safety gate: `any(target in link_target for target in
known_dynamic_targets)`. -/
def linkTargetIsDynamic (link_target : String) : Bool :=
  known_dynamic_targets.any (fun t => pyIn t link_target)

/-- Check 2 of the safety gate, applied to `f.read(1024)`: `any(comment in
current_content for comment in generator_comments)`. -/
def contentHasGeneratorComment (current_content : String) : Bool :=
  generator_comments.any (fun c => pyIn c current_content)

/-- What the direct `/etc/resolv.conf` branch did: its returned boolean,
the path the backup copy was written to (if the `cp` ran and succeeded),
and whether the file was overwritten by the final `mv`. -/
structure DirectEditResult where
  result : Bool
  backupWrittenAt : Option String
  overwrote : Bool
deriving DecidableEq, Repr

/-- Embedding of Method 3 of `set_dns_linux` (lines 408-481): the
safety-gated direct modification of `/etc/resolv.conf`.  The two gate
checks run first, in order; only when both pass does the code back up the
file (`sudo cp` to `set_backup_path`) and overwrite it (`sudo mv`).  Any
command failure is caught and the branch falls through to `return False`. -/
def direct_resolv_conf_edit (fs : ResolvFs) : DirectEditResult :=
  if fs.islink && linkTargetIsDynamic fs.linkTarget then ⟨false, none, false⟩
  else
    match fs.readOutcome with
    | .notFound => ⟨false, none, false⟩
    | .err => ⟨false, none, false⟩
    | .ok content =>
      if contentHasGeneratorComment ⟨content.data.take 1024⟩ then ⟨false, none, false⟩
      else if fs.cpOk then
        if fs.mvOk then ⟨true, some set_backup_path, true⟩
        else ⟨false, some set_backup_path, false⟩
      else ⟨false, none, false⟩

/-- Environment of one `set_dns_linux` run: which commands
`is_command_available` reports present, the raw `DEVICE:STATE` lines the
`nmcli -t -f DEVICE,STATE dev` listing prints (`none` models the listing
raising), the per-device outcomes of `nmcli dev mod ... ipv4.dns` and
`nmcli dev reapply`, the default interface `ip route get` finds, the
outcome of the `resolvectl dns` command, and the resolver-file state. -/
structure LinuxEnv where
  available : String → Bool
  nmcliDevLines : Option (List String)
  nmcliSetOk : String → Bool
  nmcliReapplyOk : String → Bool
  defaultInterface : Option String
  resolvectlOk : Bool
  fs : ResolvFs

/-- Python `line.split(':')[0]`: the characters before the first `':'`. -/
def beforeFirstColon (s : String) : String :=
  ⟨s.data.takeWhile (· ≠ ':')⟩

/-- Python `line.endswith(suffix)`. -/
def pyEndsWith (suffix s : String) : Bool :=
  leadsWith suffix.data.reverse s.data.reverse

/-- The active devices the nmcli branch collects: lines ending in
`":connected"`, each contributing `line.split(':')[0]` (lines 351-354). -/
def connectedDevices (lines : List String) : List String :=
  (lines.filter (pyEndsWith ":connected")).map beforeFirstColon

/-- The nmcli per-device loop (lines 359-379).  Returns the branch outcome
and the devices for which configuration was attempted, in order: on the
first device where `nmcli dev mod ... ipv4.dns` and `nmcli dev reapply`
both succeed the loop executes `return True`, attempting no later device;
a device where either command fails is logged and the loop moves on. -/
def nmcliLoop (env : LinuxEnv) : List String → Bool × List String
  | [] => (false, [])
  | d :: ds =>
    if env.nmcliSetOk d && env.nmcliReapplyOk d then (true, [d])
    else
      let r := nmcliLoop env ds
      (r.1, d :: r.2)

/-- Embedding of `set_dns_linux(dns_servers)`.  Returns the function's
boolean result together with the list of devices the nmcli method
attempted (its execution trace, used to state what the method did and did
not configure).  Method order is nmcli, then resolvectl on the default
interface, then the safety-gated direct file edit. -/
def set_dns_linux (env : LinuxEnv) (dns_servers : List String) : Bool × List String :=
  if dns_servers.isEmpty then (false, [])
  else
    let nmcli : Bool × List String :=
      if env.available "nmcli" then
        match env.nmcliDevLines with
        | some lines => nmcliLoop env (connectedDevices lines)
        | none => (false, [])
      else (false, [])
    if nmcli.1 then (true, nmcli.2)
    else
      let viaResolvectl : Bool :=
        if env.available "resolvectl" then
          match env.defaultInterface with
          | some _ => env.resolvectlOk
          | none => false
        else false
      if viaResolvectl then (true, nmcli.2)
      else ((direct_resolv_conf_edit env.fs).result, nmcli.2)

/- ------------------------------------------------------------------ -/
/- restore_dns_linux (lines 1064-1127) and the restore flow            -/
/- ------------------------------------------------------------------ -/

/-- Outcome of one external command (or command sequence) during restore:
it succeeded, it ran and failed (`CalledProcessError`), or its executable
was missing (`FileNotFoundError`). -/
inductive CmdRes where
  | ok
  | failed
  | notFound
deriving DecidableEq, Repr

/-- The backup path the `"resolv.conf"` restore branch looks for
(line 1107) — note it differs from `set_backup_path`. -/
def restore_backup_path : String := "/etc/resolv.conf.bak"

/-- Environment of one `restore_dns_linux` run: the outcome of the nmcli
command sequence per device, of the `resolvectl revert` per interface,
which filesystem paths exist (`os.path.exists`), and the outcome of the
`mv` restoring the backup. -/
structure RestoreEnv where
  nmcliRes : String → CmdRes
  resolvectlRes : String → CmdRes
  pathExists : String → Bool
  mvRes : CmdRes

/-- What processing one snapshot entry does to the loop: succeed, record a
per-point failure and continue (`success = False`), or abort the whole
function (`return False` on `FileNotFoundError`). -/
inductive StepRes where
  | ok
  | perPointFail
  | abort
deriving DecidableEq, Repr

/-- One iteration of the `restore_dns_linux` loop body for entry
`(interface_id, config)`, dispatching on `config.get("method", "")`.
A `"resolv.conf"` entry whose backup file is absent prints a message and
sets `success = False` without raising; an unknown method likewise.  A
`FileNotFoundError` from a subprocess call is the only abort. -/
def restoreStep (env : RestoreEnv) (interface_id : String) (config : AttachmentSnapshot) : StepRes :=
  if config.method = "nmcli" || config.method = "nmcli_unknown_fallback_to_dhcp" then
    match env.nmcliRes interface_id with
    | .ok => .ok
    | .failed => .perPointFail
    | .notFound => .abort
  else if config.method = "resolvectl" then
    match env.resolvectlRes interface_id with
    | .ok => .ok
    | .failed => .perPointFail
    | .notFound => .abort
  else if config.method = "resolv.conf" then
    if env.pathExists restore_backup_path then
      match env.mvRes with
      | .ok => .ok
      | .failed => .perPointFail
      | .notFound => .abort
    else .perPointFail
  else .perPointFail

/-- Result of `restore_dns_linux`: its returned boolean, the entries whose
restoration was attempted (in order), and the entries that recorded a
failure. -/
structure RestoreOutcome where
  success : Bool
  attempted : List String
  failures : List String
deriving DecidableEq, Repr

/-- Embedding of `restore_dns_linux(settings)`: iterate over the entries
(Python dict items, in insertion order), keep going on per-point failures
with `success = False`, and return `False` immediately on a missing
executable. -/
def restore_dns_linux (env : RestoreEnv) : List (String × AttachmentSnapshot) → RestoreOutcome
  | [] => ⟨true, [], []⟩
  | (interface_id, config) :: rest =>
    match restoreStep env interface_id config with
    | .ok =>
      let r := restore_dns_linux env rest
      ⟨r.success, interface_id :: r.attempted, r.failures⟩
    | .perPointFail =>
      let r := restore_dns_linux env rest
      ⟨false, interface_id :: r.attempted, interface_id :: r.failures⟩
    | .abort => ⟨false, [interface_id], [interface_id]⟩

/-- Python `settings.get(key, {})` on the platform-keyed snapshot. -/
def getPlatform (s : HostSnapshot) (key : String) : PlatformMap :=
  match s.find? (fun kv => kv.1 = key) with
  | some kv => kv.2
  | none => []

/-- Environment of one `run_restore_dns_flow` run on a Linux host. -/
structure FlowEnv where
  privileged : Bool
  loaded : Option HostSnapshot
  renv : RestoreEnv

/-- Result of the restore flow: an early `sys.exit(1)`, or completion with
the restore result and whether `os.remove(ORIGINAL_DNS_CONFIG_FILE)` was
executed (the snapshot file is deleted exactly when restoration reported
success; on failure the file is preserved). -/
inductive FlowResult where
  | exitPrivilege
  | exitNoSettings
  | done (restoredOk : Bool) (snapshotFileRemoved : Bool)
deriving DecidableEq, Repr

/-- Embedding of `run_restore_dns_flow` (lines 1161-1196) specialised to a
Linux host (`get_os() == "linux"`).  `if not original_settings` treats both
a load failure and an empty loaded dict as "nothing to restore" and exits.
The final `flush_dns()` call is best-effort and does not affect the
result. -/
def run_restore_dns_flow_linux (env : FlowEnv) : FlowResult :=
  if !env.privileged then .exitPrivilege
  else
    match env.loaded with
    | none => .exitNoSettings
    | some s =>
      if s.isEmpty then .exitNoSettings
      else
        let r := restore_dns_linux env.renv (getPlatform s "linux")
        .done r.success r.success

/- ------------------------------------------------------------------ -/
/- Claim theorems                                                      -/
/- ------------------------------------------------------------------ -/

/-- Claim C10: the claim states `get_os` always returns one of the four OS
names and never raises, with `get_os("Darwin") = "macos"`.  The code is
wrong: its third branch reads the undefined name `system`, so any input
whose lowering contains neither `"windows"` nor `"linux"` — including
`"Darwin"`, for which the unit test `test_get_os_macos` expects
`"macos"`, and `"SunOS"`, for which `test_get_os_unknown` expects
`"unknown"` — raises `NameError` instead of returning. -/
theorem get_os_darwin_raises :
    get_os "Darwin" = .error "NameError: name system is not defined" ∧
    get_os "SunOS" = .error "NameError: name system is not defined" ∧
    get_os "Windows" = .ok "windows" ∧
    get_os "Linux" = .ok "linux" :=
  ⟨rfl, rfl, rfl, rfl⟩

theorem collectServers_of_no_ip (lines : List String) (acc : List String)
    (h : ∀ line ∈ lines, lineIP line = none) : collectServers lines acc = acc := by
  induction lines generalizing acc with
  | nil => rfl
  | cons l ls ih =>
    have hl : lineIP l = none := h l (by simp)
    simp only [collectServers, hl]
    exact ih acc (fun x hx => h x (by simp [hx]))

/-- Claim C8: on the spec's example content the Config Loader returns
exactly `["8.8.8.8", "1.1.1.1", "9.9.9.9"]` (comments and blank lines
skipped, order preserved, capped at 3, the fourth valid entry dropped);
it never returns an empty list, and content none of whose lines yields a
valid address — only comments/blank lines, or only invalid entries —
returns `none`. -/
theorem parse_dns_config_spec :
    parse_dns_config "# c\nA=8.8.8.8\n\nB=1.1.1.1\nC=9.9.9.9\nD=4.4.4.4\n" =
      some ["8.8.8.8", "1.1.1.1", "9.9.9.9"] ∧
    (∀ content : String, parse_dns_config content ≠ some []) ∧
    (∀ content : String, (∀ line ∈ pyReadlines content, lineIP line = none) →
      parse_dns_config content = none) := by
  refine ⟨by decide, ?_, ?_⟩
  · intro content h
    unfold parse_dns_config at h
    by_cases he : (pyReadlines content).isEmpty
    · simp [he] at h
    · simp only [he, if_false, Bool.false_eq_true] at h
      by_cases hs : (collectServers (pyReadlines content) []).isEmpty
      · simp [hs] at h
      · simp only [hs, if_false, Bool.false_eq_true, Option.some.injEq] at h
        rw [h] at hs
        simp at hs
  · intro content h
    unfold parse_dns_config
    by_cases he : (pyReadlines content).isEmpty
    · simp [he]
    · simp only [he, if_false, Bool.false_eq_true]
      rw [collectServers_of_no_ip _ _ h]
      simp

/-- Claim C2: the claim states capture and restore use one canonical
backup path for the direct resolver-file method.  The code is wrong (the
spec itself flags the discrepancy as a defect): the mutation branch backs
up to `/etc/resolv.conf.bak_set_dns_py` while the restore branch for
method `"resolv.conf"` looks for `/etc/resolv.conf.bak`, so in the
filesystem state a successful direct-file mutation leaves behind (only
the mutation-time backup path exists), the restore of that entry reports
the backup missing and fails. -/
theorem backup_path_mismatch :
    set_backup_path ≠ restore_backup_path ∧
    (∀ env : RestoreEnv, ∀ interface_id : String, ∀ config : AttachmentSnapshot,
      config.method = "resolv.conf" →
      env.pathExists = (fun p => p == set_backup_path) →
      restoreStep env interface_id config = .perPointFail) := by
  refine ⟨by decide, ?_⟩
  intro env interface_id config hm hp
  have hne : (restore_backup_path == set_backup_path) = false := by decide
  simp [restoreStep, hm, hp, hne]

/-- Claim C9: when the loaded snapshot is non-empty but holds no entries
for the `"linux"` platform key (e.g. it was captured on another OS), the
restore flow runs `restore_dns_linux` over zero entries, which returns
`True` vacuously, so the flow reports overall success and deletes the
snapshot file even though no attachment point was restored. -/
theorem restore_flow_vacuous_success (fenv : FlowEnv) (s : HostSnapshot)
    (hpriv : fenv.privileged = true)
    (hload : fenv.loaded = some s)
    (hs : s.isEmpty = false)
    (hget : getPlatform s "linux" = []) :
    restore_dns_linux fenv.renv (getPlatform s "linux") = ⟨true, [], []⟩ ∧
    run_restore_dns_flow_linux fenv = .done true true := by
  constructor
  · rw [hget]; rfl
  · simp [run_restore_dns_flow_linux, hpriv, hload, hs, hget, restore_dns_linux]

/-- An environment for the witness of C9: the snapshot was captured on
Windows, so its map under `"linux"` is empty. -/
def flowEnvC9 : FlowEnv where
  privileged := true
  loaded := some [("windows", [("Ethernet", ⟨["8.8.8.8"], .bool false, "netsh"⟩)])]
  renv := { nmcliRes := fun _ => .ok, resolvectlRes := fun _ => .ok,
            pathExists := fun _ => false, mvRes := .ok }

theorem restore_flow_vacuous_success_witness :
    restore_dns_linux flowEnvC9.renv
      (getPlatform [("windows", [("Ethernet", ⟨["8.8.8.8"], .bool false, "netsh"⟩)])] "linux") =
      ⟨true, [], []⟩ ∧
    run_restore_dns_flow_linux flowEnvC9 = .done true true :=
  restore_flow_vacuous_success flowEnvC9
    [("windows", [("Ethernet", ⟨["8.8.8.8"], .bool false, "netsh"⟩)])]
    rfl rfl rfl (by decide)

/-- Claim C5: on Linux, when `nmcli` (the highest-priority method's tool)
is absent, `set_dns_linux` falls through: if `resolvectl` is available,
the default interface is found and the `resolvectl dns` command succeeds,
the function returns `True`; and even when that also fails, a successful
safety-gated direct file edit still yields `True`.  No single method's
absence or failure aborts the flow while untried methods remain. -/
theorem set_dns_linux_fallthrough (env : LinuxEnv) (dns_servers : List String)
    (hne : dns_servers.isEmpty = false)
    (hnm : env.available "nmcli" = false) :
    (env.available "resolvectl" = true → env.defaultInterface.isSome = true →
      env.resolvectlOk = true → (set_dns_linux env dns_servers).1 = true) ∧
    ((direct_resolv_conf_edit env.fs).result = true →
      (set_dns_linux env dns_servers).1 = true) := by
  constructor
  · intro hr hi hok
    obtain ⟨i, hi⟩ := Option.isSome_iff_exists.mp hi
    simp [set_dns_linux, hne, hnm, hr, hi, hok]
  · intro hd
    by_cases hr : env.available "resolvectl" = true
    · cases hi : env.defaultInterface with
      | some i =>
        by_cases hok : env.resolvectlOk = true
        · simp [set_dns_linux, hne, hnm, hr, hi, hok]
        · have hok' : env.resolvectlOk = false := by simpa using hok
          simp [set_dns_linux, hne, hnm, hr, hi, hok', hd]
      | none => simp [set_dns_linux, hne, hnm, hr, hi, hd]
    · have hr' : env.available "resolvectl" = false := by simpa using hr
      simp [set_dns_linux, hne, hnm, hr', hd]

/-- An environment for the witness of C5: `nmcli` absent, `resolvectl`
present and succeeding on the default interface. -/
def linuxEnvC5 : LinuxEnv where
  available := fun c => c == "resolvectl"
  nmcliDevLines := some []
  nmcliSetOk := fun _ => false
  nmcliReapplyOk := fun _ => false
  defaultInterface := some "eth0"
  resolvectlOk := true
  fs := ⟨false, "", .notFound, false, false⟩

theorem set_dns_linux_fallthrough_witness :
    (set_dns_linux linuxEnvC5 ["8.8.8.8"]).1 = true :=
  (set_dns_linux_fallthrough linuxEnvC5 ["8.8.8.8"] rfl (by decide)).1 (by decide) rfl rfl

/-- Claim C1: the Safety Gate of the direct `/etc/resolv.conf` branch.
If the file is a symlink whose target matches a known daemon-managed
pattern, or its leading 1024 characters contain a known auto-generated
marker, the branch returns `False` without writing a backup and without
overwriting the file; a backup is written only when both checks pass, and
when both checks pass and the copy and move commands succeed the branch
backs the file up and overwrites it, returning `True`. -/
theorem direct_edit_safety_gate (fs : ResolvFs) :
    ((fs.islink = true ∧ linkTargetIsDynamic fs.linkTarget = true) ∨
      (∃ content, fs.readOutcome = .ok content ∧
        contentHasGeneratorComment ⟨content.data.take 1024⟩ = true) →
      direct_resolv_conf_edit fs = ⟨false, none, false⟩) ∧
    ((direct_resolv_conf_edit fs).backupWrittenAt.isSome = true →
      ¬(fs.islink = true ∧ linkTargetIsDynamic fs.linkTarget = true) ∧
      ∃ content, fs.readOutcome = .ok content ∧
        contentHasGeneratorComment ⟨content.data.take 1024⟩ = false) ∧
    (∀ content, fs.readOutcome = .ok content →
      ¬(fs.islink = true ∧ linkTargetIsDynamic fs.linkTarget = true) →
      contentHasGeneratorComment ⟨content.data.take 1024⟩ = false →
      fs.cpOk = true → fs.mvOk = true →
      direct_resolv_conf_edit fs = ⟨true, some set_backup_path, true⟩) := by
  refine ⟨?_, ?_, ?_⟩
  · rintro (⟨hl, ht⟩ | ⟨content, hr, hc⟩)
    · simp [direct_resolv_conf_edit, hl, ht]
    · by_cases hgate : fs.islink && linkTargetIsDynamic fs.linkTarget
      · simp [direct_resolv_conf_edit, hgate]
      · simp [direct_resolv_conf_edit, hgate, hr, hc]
  · intro hb
    unfold direct_resolv_conf_edit at hb
    by_cases hgate : fs.islink && linkTargetIsDynamic fs.linkTarget
    · simp [hgate] at hb
    · refine ⟨by simpa [Bool.and_eq_true] using hgate, ?_⟩
      cases hr : fs.readOutcome with
      | ok content =>
        by_cases hc : contentHasGeneratorComment ⟨content.data.take 1024⟩
        · simp [hgate, hr, hc] at hb
        · exact ⟨content, rfl, by simpa using hc⟩
      | notFound => simp [hgate, hr] at hb
      | err => simp [hgate, hr] at hb
  · intro content hr hgate hc hcp hmv
    have hgate' : (fs.islink && linkTargetIsDynamic fs.linkTarget) = false := by
      cases h1 : fs.islink <;> cases h2 : linkTargetIsDynamic fs.linkTarget <;> simp_all
    simp [direct_resolv_conf_edit, hgate', hr, hc, hcp, hmv]

/-- A filesystem state for the witness of C1: a plain file whose content
carries no generator marker, with the copy and move commands succeeding. -/
def resolvFsC1 : ResolvFs where
  islink := false
  linkTarget := ""
  readOutcome := .ok "nameserver 192.168.1.1\n"
  cpOk := true
  mvOk := true

theorem direct_edit_safety_gate_witness :
    direct_resolv_conf_edit resolvFsC1 = ⟨true, some set_backup_path, true⟩ :=
  (direct_edit_safety_gate resolvFsC1).2.2 "nameserver 192.168.1.1\n" rfl
    (by decide) (by decide) rfl rfl

/-- The devices up to and including the first one satisfying `p`. -/
def upToFirst (p : α → Bool) : List α → List α
  | [] => []
  | a :: as => if p a then [a] else a :: upToFirst p as

theorem nmcliLoop_eq (env : LinuxEnv) (ds : List String) :
    nmcliLoop env ds =
      (ds.any (fun d => env.nmcliSetOk d && env.nmcliReapplyOk d),
       upToFirst (fun d => env.nmcliSetOk d && env.nmcliReapplyOk d) ds) := by
  induction ds with
  | nil => rfl
  | cons d ds ih =>
    by_cases h : (env.nmcliSetOk d && env.nmcliReapplyOk d) = true
    · simp [nmcliLoop, upToFirst, h]
    · have h' : (env.nmcliSetOk d && env.nmcliReapplyOk d) = false := by simpa using h
      simp [nmcliLoop, upToFirst, h', ih]

/-- An environment for C6: `nmcli` available, two connected devices, and
the modify and reapply commands succeeding for every device. -/
def linuxEnvC6 : LinuxEnv where
  available := fun c => c == "nmcli"
  nmcliDevLines := some ["eth0:connected", "eth1:connected", "lo:unmanaged"]
  nmcliSetOk := fun _ => true
  nmcliReapplyOk := fun _ => true
  defaultInterface := none
  resolvectlOk := false
  fs := ⟨false, "", .notFound, false, false⟩

/-- Claim C6 counterexample: with two connected attachment points and the
nmcli method succeeding on each, `set_dns_linux` returns `True` after
configuring only the first connected device (`eth0`); the second connected
device (`eth1`) is never attempted, contradicting the claim that the
per-interface method continues configuring every connected point. -/
theorem nmcli_stops_after_first_success_cex :
    connectedDevices ["eth0:connected", "eth1:connected", "lo:unmanaged"] =
      ["eth0", "eth1"] ∧
    set_dns_linux linuxEnvC6 ["8.8.8.8"] = (true, ["eth0"]) := by
  constructor
  · decide
  · decide

/-- Claim C6 as amended: when the Linux Mutator applies servers via the
nmcli method, it processes connected attachment points in order and
executes `return True` at the first point for which both the DNS modify
and the reapply succeed, attempting no later connected point; it proceeds
past a point only when that point fails.  (Its result and the attempted
devices are exactly `upToFirst` of the connected device list.) -/
theorem nmcli_first_success_semantics (env : LinuxEnv) (dns_servers : List String)
    (lines : List String)
    (hne : dns_servers.isEmpty = false)
    (hav : env.available "nmcli" = true)
    (hlines : env.nmcliDevLines = some lines)
    (hsucc : (connectedDevices lines).any
      (fun d => env.nmcliSetOk d && env.nmcliReapplyOk d) = true) :
    set_dns_linux env dns_servers =
      (true, upToFirst (fun d => env.nmcliSetOk d && env.nmcliReapplyOk d)
        (connectedDevices lines)) := by
  simp [set_dns_linux, hne, hav, hlines, nmcliLoop_eq, hsucc]

theorem nmcli_first_success_semantics_witness :
    set_dns_linux linuxEnvC6 ["1.1.1.1"] =
      (true, upToFirst (fun d => linuxEnvC6.nmcliSetOk d && linuxEnvC6.nmcliReapplyOk d)
        (connectedDevices ["eth0:connected", "eth1:connected", "lo:unmanaged"])) :=
  nmcli_first_success_semantics linuxEnvC6 ["1.1.1.1"]
    ["eth0:connected", "eth1:connected", "lo:unmanaged"] rfl (by decide) rfl (by decide)

/-- No entry of the list makes the restore loop hit a missing executable
(the only condition that aborts the loop early). -/
def noAbortEntries (env : RestoreEnv) (l : List (String × AttachmentSnapshot)) : Prop :=
  ∀ e ∈ l, restoreStep env e.1 e.2 ≠ .abort

instance (env : RestoreEnv) (l : List (String × AttachmentSnapshot)) :
    Decidable (noAbortEntries env l) := by
  unfold noAbortEntries
  infer_instance

theorem restore_attempts_all (env : RestoreEnv) (l : List (String × AttachmentSnapshot))
    (h : noAbortEntries env l) :
    (restore_dns_linux env l).attempted = l.map Prod.fst := by
  induction l with
  | nil => rfl
  | cons e rest ih =>
    obtain ⟨id, cfg⟩ := e
    have hstep := h (id, cfg) (by simp)
    have hrest : noAbortEntries env rest := fun x hx => h x (by simp [hx])
    cases hs : restoreStep env id cfg with
    | ok => simp [restore_dns_linux, hs, ih hrest]
    | perPointFail => simp [restore_dns_linux, hs, ih hrest]
    | abort => exact absurd hs hstep

theorem restore_success_no_failures (env : RestoreEnv)
    (l : List (String × AttachmentSnapshot))
    (h : (restore_dns_linux env l).success = true) :
    (restore_dns_linux env l).failures = [] := by
  induction l with
  | nil => rfl
  | cons e rest ih =>
    obtain ⟨id, cfg⟩ := e
    cases hs : restoreStep env id cfg with
    | ok =>
      simp [restore_dns_linux, hs] at h ⊢
      exact ih h
    | perPointFail => simp [restore_dns_linux, hs] at h
    | abort => simp [restore_dns_linux, hs] at h

theorem restore_fail_propagates (env : RestoreEnv)
    (pre : List (String × AttachmentSnapshot)) (id : String) (cfg : AttachmentSnapshot)
    (post : List (String × AttachmentSnapshot))
    (hpre : noAbortEntries env pre)
    (hstep : restoreStep env id cfg = .perPointFail) :
    (restore_dns_linux env (pre ++ (id, cfg) :: post)).success = false ∧
    id ∈ (restore_dns_linux env (pre ++ (id, cfg) :: post)).failures := by
  induction pre with
  | nil => simp [restore_dns_linux, hstep]
  | cons e rest ih =>
    obtain ⟨id0, cfg0⟩ := e
    have hstep0 := hpre (id0, cfg0) (by simp)
    have hrest : noAbortEntries env rest := fun x hx => hpre x (by simp [hx])
    cases hs : restoreStep env id0 cfg0 with
    | ok =>
      have h2 := ih hrest
      constructor
      · simpa [restore_dns_linux, hs] using h2.1
      · simpa [restore_dns_linux, hs] using h2.2
    | perPointFail =>
      have h2 := ih hrest
      constructor
      · simp [restore_dns_linux, hs]
      · simp only [restore_dns_linux, hs, List.cons_append]
        simp [List.mem_cons]
        exact Or.inr h2.2
    | abort => exact absurd hs hstep0

/-- Claim C3: a snapshot entry with method `"resolv.conf"` whose backup
file `/etc/resolv.conf.bak` does not exist records a per-point failure.
Provided no entry of the list hits a missing executable (the only early
abort), every remaining point is still attempted, `restore_dns_linux`
returns `False` overall, and the restore flow then keeps the snapshot
file; the file is removed only when restoration reported success, which
entails that no point recorded a failure. -/
theorem restore_missing_backup_per_point (fenv : FlowEnv) (s : HostSnapshot)
    (pre post : List (String × AttachmentSnapshot)) (interface_id : String)
    (cfg : AttachmentSnapshot)
    (hm : cfg.method = "resolv.conf")
    (hb : fenv.renv.pathExists restore_backup_path = false)
    (hnoab : noAbortEntries fenv.renv (pre ++ (interface_id, cfg) :: post))
    (hpriv : fenv.privileged = true)
    (hload : fenv.loaded = some s)
    (hs : s.isEmpty = false)
    (hget : getPlatform s "linux" = pre ++ (interface_id, cfg) :: post) :
    (restore_dns_linux fenv.renv (pre ++ (interface_id, cfg) :: post)).success = false ∧
    interface_id ∈ (restore_dns_linux fenv.renv (pre ++ (interface_id, cfg) :: post)).failures ∧
    (restore_dns_linux fenv.renv (pre ++ (interface_id, cfg) :: post)).attempted =
      (pre ++ (interface_id, cfg) :: post).map Prod.fst ∧
    run_restore_dns_flow_linux fenv = .done false false ∧
    (∀ l : List (String × AttachmentSnapshot),
      (restore_dns_linux fenv.renv l).success = true →
      (restore_dns_linux fenv.renv l).failures = []) := by
  have hstep : restoreStep fenv.renv interface_id cfg = .perPointFail := by
    have hne1 : ("resolv.conf" = "nmcli" ∨ "resolv.conf" = "nmcli_unknown_fallback_to_dhcp") =
        False := by simp
    simp [restoreStep, hm, hb]
  have hpre : noAbortEntries fenv.renv pre := by
    intro x hx
    exact hnoab x (by simp [hx])
  have hmain := restore_fail_propagates fenv.renv pre interface_id cfg post hpre hstep
  refine ⟨hmain.1, hmain.2, restore_attempts_all fenv.renv _ hnoab, ?_,
    fun l => restore_success_no_failures fenv.renv l⟩
  simp [run_restore_dns_flow_linux, hpriv, hload, hs, hget, hmain.1]

/-- An environment and snapshot for the witness of C3: three Linux entries,
the middle one a direct-resolver-file point whose backup is missing. -/
def flowEnvC3 : FlowEnv where
  privileged := true
  loaded := some [("linux",
    [("eth0", ⟨["8.8.8.8"], .bool false, "nmcli"⟩),
     ("/etc/resolv.conf", ⟨["9.9.9.9"], .bool false, "resolv.conf"⟩),
     ("eth1", ⟨[], .str "unknown_revert_to_resolvectl", "resolvectl"⟩)])]
  renv := { nmcliRes := fun _ => .ok, resolvectlRes := fun _ => .ok,
            pathExists := fun _ => false, mvRes := .ok }

/-- The per-platform entries of `flowEnvC3` around the failing point. -/
def preC3 : List (String × AttachmentSnapshot) :=
  [("eth0", ⟨["8.8.8.8"], .bool false, "nmcli"⟩)]

/-- The entries after the failing point in `flowEnvC3`. -/
def postC3 : List (String × AttachmentSnapshot) :=
  [("eth1", ⟨[], .str "unknown_revert_to_resolvectl", "resolvectl"⟩)]

/-- The failing direct-resolver-file entry of `flowEnvC3`. -/
def cfgC3 : AttachmentSnapshot := ⟨["9.9.9.9"], .bool false, "resolv.conf"⟩

theorem restore_missing_backup_per_point_witness :
    (restore_dns_linux flowEnvC3.renv (preC3 ++ ("/etc/resolv.conf", cfgC3) :: postC3)).success
      = false ∧
    "/etc/resolv.conf" ∈
      (restore_dns_linux flowEnvC3.renv
        (preC3 ++ ("/etc/resolv.conf", cfgC3) :: postC3)).failures ∧
    (restore_dns_linux flowEnvC3.renv (preC3 ++ ("/etc/resolv.conf", cfgC3) :: postC3)).attempted
      = (preC3 ++ ("/etc/resolv.conf", cfgC3) :: postC3).map Prod.fst ∧
    run_restore_dns_flow_linux flowEnvC3 = .done false false ∧
    (∀ l : List (String × AttachmentSnapshot),
      (restore_dns_linux flowEnvC3.renv l).success = true →
      (restore_dns_linux flowEnvC3.renv l).failures = []) :=
  restore_missing_backup_per_point flowEnvC3
    [("linux", preC3 ++ ("/etc/resolv.conf", cfgC3) :: postC3)]
    preC3 postC3 "/etc/resolv.conf" cfgC3 rfl rfl (by decide) rfl (by decide) rfl (by decide)

/-- Claim C7 counterexample: the claim requires `False` for any string
with characters after the dotted quad, but the regex `$` of Python's `re`
also matches just before a final newline, so the validator accepts
`"1.2.3.4\n"`. -/
theorem is_valid_ip_trailing_newline_cex :
    is_valid_ip ("1.2.3.4" ++ "\n") = true := by decide

/-- A dotted-quad group as the amended claim describes it: one to three
decimal digits whose numeric value is at most 255. -/
def okGroup (g : List Char) : Prop :=
  g ≠ [] ∧ g.length ≤ 3 ∧ (∀ c ∈ g, c.isDigit = true) ∧ digitsVal g ≤ 255

/-- The characters of the dotted quad `a.b.c.d`. -/
def quadChars (a b c d : List Char) : List Char :=
  a ++ ['.'] ++ b ++ ['.'] ++ c ++ ['.'] ++ d

theorem intercalate_quad (a b c d : List Char) :
    ['.'].intercalate [a, b, c, d] = quadChars a b c d := by
  simp [List.intercalate, List.intersperse, quadChars, List.append_assoc]

theorem isRegexGroup_iff (g : List Char) :
    isRegexGroup g = true ↔ g ≠ [] ∧ g.length ≤ 3 ∧ ∀ c ∈ g, c.isDigit = true := by
  simp [isRegexGroup, List.all_eq_true, List.isEmpty_iff, and_assoc]

theorem dot_not_mem_of_digits (g : List Char) (h : ∀ c ∈ g, c.isDigit = true) :
    '.' ∉ g := by
  intro hc
  exact absurd (h '.' hc) (by decide)

theorem getLast?_quadChars (a b c d : List Char) (x : Char) (hx : d.getLast? = some x) :
    (quadChars a b c d).getLast? = some x := by
  have hq : quadChars a b c d = (a ++ ['.'] ++ b ++ ['.'] ++ c ++ ['.']) ++ d := by
    simp [quadChars, List.append_assoc]
  rw [hq, List.getLast?_append, hx]
  rfl

/-- Claim C7 as amended: `is_valid_ip` returns `True` exactly on the
strings consisting of four dot-separated groups of one to three decimal
digits, each with numeric value at most 255, with no other leading or
trailing content — except that a single trailing newline character is
also accepted (Python's `$` matches before a final newline).  In
particular it returns `False` for wrong group counts, out-of-range
octets, non-numeric groups, a trailing dot, the empty string, and any
other leading or trailing content. -/
theorem is_valid_ip_characterization (s : String) :
    is_valid_ip s = true ↔
      ∃ a b c d : List Char,
        (s.data = quadChars a b c d ∨ s.data = quadChars a b c d ++ ['\n']) ∧
        okGroup a ∧ okGroup b ∧ okGroup c ∧ okGroup d := by
  constructor
  · intro h
    unfold is_valid_ip at h
    by_cases hm : pyMatchIpv4 s.data = true
    case neg =>
      rw [if_neg hm] at h
      exact absurd h (by simp)
    rw [if_pos hm] at h
    unfold pyMatchIpv4 at hm
    split at hm
    case _ a b c d heq =>
      rw [heq] at h
      simp only [List.all_cons, List.all_nil, Bool.and_eq_true, Bool.and_true,
        decide_eq_true_eq] at h
      obtain ⟨hva, hvb, hvc, hvd⟩ := h
      simp only [Bool.and_eq_true] at hm
      obtain ⟨⟨⟨hga, hgb⟩, hgc⟩, hgd⟩ := hm
      have hka := (isRegexGroup_iff a).mp hga
      have hkb := (isRegexGroup_iff b).mp hgb
      have hkc := (isRegexGroup_iff c).mp hgc
      have hkd := (isRegexGroup_iff d).mp hgd
      have hcore : quadChars a b c d = dropFinalNewline s.data := by
        have h1 := List.intercalate_splitOn (dropFinalNewline s.data) '.'
        rw [heq, intercalate_quad] at h1
        exact h1
      refine ⟨a, b, c, d, ?_,
        ⟨hka.1, hka.2.1, hka.2.2, hva⟩, ⟨hkb.1, hkb.2.1, hkb.2.2, hvb⟩,
        ⟨hkc.1, hkc.2.1, hkc.2.2, hvc⟩, ⟨hkd.1, hkd.2.1, hkd.2.2, hvd⟩⟩
      by_cases hl : s.data.getLast? = some '\n'
      · right
        have hne : s.data ≠ [] := by
          intro h0
          rw [h0] at hl
          simp at hl
        have hlast : s.data.getLast hne = '\n' := by
          have h2 := List.getLast?_eq_getLast s.data hne
          rw [h2] at hl
          exact Option.some.inj hl
        have hdrop : dropFinalNewline s.data = s.data.dropLast := by
          rw [dropFinalNewline, if_pos hl]
        rw [hcore, hdrop]
        conv_lhs => rw [← List.dropLast_append_getLast hne]
        rw [hlast]
      · left
        have hdrop : dropFinalNewline s.data = s.data := by
          rw [dropFinalNewline, if_neg hl]
        rw [hcore, hdrop]
    case _ =>
      exact absurd hm (by simp)
  · rintro ⟨a, b, c, d, hdec, hka, hkb, hkc, hkd⟩
    have hdots : ∀ g ∈ [a, b, c, d], ('.' : Char) ∉ g := by
      intro g hg
      simp only [List.mem_cons, List.not_mem_nil, or_false] at hg
      rcases hg with rfl | rfl | rfl | rfl
      · exact dot_not_mem_of_digits g hka.2.2.1
      · exact dot_not_mem_of_digits g hkb.2.2.1
      · exact dot_not_mem_of_digits g hkc.2.2.1
      · exact dot_not_mem_of_digits g hkd.2.2.1
    have hsplitq : (quadChars a b c d).splitOn '.' = [a, b, c, d] := by
      have h1 := List.splitOn_intercalate [a, b, c, d] '.' hdots (by simp)
      rw [intercalate_quad] at h1
      exact h1
    have hcore : dropFinalNewline s.data = quadChars a b c d := by
      rcases hdec with h1 | h2
      · have hx : d.getLast? = some (d.getLast hkd.1) := List.getLast?_eq_getLast d hkd.1
        have hxd : (d.getLast hkd.1).isDigit = true :=
          hkd.2.2.1 _ (List.getLast_mem hkd.1)
        have hql : (quadChars a b c d).getLast? = some (d.getLast hkd.1) :=
          getLast?_quadChars a b c d _ hx
        have hnl : ¬s.data.getLast? = some '\n' := by
          rw [h1, hql]
          intro hcontra
          have hxe : d.getLast hkd.1 = '\n' := Option.some.inj hcontra
          rw [hxe] at hxd
          exact absurd hxd (by decide)
        rw [dropFinalNewline, if_neg hnl, h1]
      · rw [h2, dropFinalNewline, if_pos (List.getLast?_concat _), List.dropLast_concat]
    have hm : pyMatchIpv4 s.data = true := by
      unfold pyMatchIpv4
      rw [hcore, hsplitq]
      simp only [Bool.and_eq_true]
      exact ⟨⟨⟨(isRegexGroup_iff a).mpr ⟨hka.1, hka.2.1, hka.2.2.1⟩,
        (isRegexGroup_iff b).mpr ⟨hkb.1, hkb.2.1, hkb.2.2.1⟩⟩,
        (isRegexGroup_iff c).mpr ⟨hkc.1, hkc.2.1, hkc.2.2.1⟩⟩,
        (isRegexGroup_iff d).mpr ⟨hkd.1, hkd.2.1, hkd.2.2.1⟩⟩
    unfold is_valid_ip
    rw [if_pos hm, hcore, hsplitq]
    simp only [List.all_cons, List.all_nil, Bool.and_eq_true, Bool.and_true,
      decide_eq_true_eq]
    exact ⟨hka.2.2.2, hkb.2.2.2, hkc.2.2.2, hkd.2.2.2⟩
